import Mathlib

/-!
A verification development for the A-Share market crawler
(`src/ashare_crawler.py`, `start_crawler.py`).

The concurrent engine is embedded shallowly: one iteration of each worker
loop becomes a pure step function on explicit state, queue contents become
lists, and the tqdm progress bar becomes a `(total, completed)` record.
Python integers are `Int`/`Nat`; the outcome of calling a task's bound
function (including an uncaught exception) is passed to the step function
as an explicit value.

`src/utils.py` is not part of the sources; the definitions taken from it
(`each_task`, the queue bundle) are modelled from the specification and
marked as such.
-/

namespace AShare

/-- The bound functions a task can carry: `AShareCrawler.get_list` (a page of
stock identifiers) or `AShareCrawler.get_stock` (one stock's history).
`do_task` dispatches on `task.func.__name__ == 'get_list'`. -/
inductive FuncName where
  | get_list
  | get_stock
  deriving DecidableEq, Repr

/-- One element of a task's `args` list.  `get_list` receives a page number
(a Python int), `get_stock` a stock identifier (a Python str). -/
inductive Arg where
  | int (n : Int)
  | str (s : String)
  deriving DecidableEq, Repr

/-- Modelled from the spec: `each_task` is constructed in `src/utils.py`
(absent from the sources).  Per the spec's data model a Task is a record of
the function reference, its ordered argument sequence, and a retry counter;
`ashare_crawler.py` accesses exactly the fields `task.func`, `task.args`
and `task.tries`, and builds tasks as `each_task(func, [arg], 0)`. -/
structure Task where
  func : FuncName
  args : List Arg
  tries : Nat
  deriving DecidableEq, Repr

/-- Modelled from the spec: `each_task` constructor from the absent
`src/utils.py`, bundling a bound function, its arguments and a tries count. -/
def each_task (func : FuncName) (args : List Arg) (tries : Nat) : Task :=
  { func := func, args := args, tries := tries }

/-- The value `task.func(*task.args)` can evaluate to: Python `None`
(transient failure), a list of stock identifiers (from `get_list`), or a
pandas DataFrame which is either empty or not (from `get_stock`). -/
inductive FetchResult where
  | noneRes
  | pageList (ids : List String)
  | frame (isEmpty : Bool)
  deriving DecidableEq, Repr

/-- How the call `task.func(*task.args)` ends: with a value, or by raising
an exception that the worker's `except Exception` handler will catch. -/
inductive ExecOutcome where
  | raises
  | returns (r : FetchResult)
  deriving DecidableEq, Repr

/-- Replace every occurrence of the two-character placeholder `%s` in the
first character list by the second. -/
def substPercentS : List Char → List Char → List Char
  | [], _ => []
  | '%' :: 's' :: rest, xs => xs ++ substPercentS rest xs
  | c :: rest, xs => c :: substPercentS rest xs

/-- `save_fp % x`: the configured save-path template instantiated with a
stock id.  The template's exact shape is configuration, outside the core;
substitution is modelled as replacing the placeholder. -/
def pyFormat (template x : String) : String :=
  String.mk (substPercentS template.data x.data)

/-- The observable effect of one iteration of `AShareCrawler.do_task`
(lines 66-116) on a popped entry `[prior, task]`:
the task's tries counter afterwards, the entries put on the crawler queue,
the pending results put on the writer queue, the increase of `pbar.total`,
whether the error-severity stop-retrying log fired (line 75), and
whether the `except Exception` handler logged, with its context
`(task.func.__name__, task.args)` (lines 113-116). -/
structure CrawlStep where
  tries : Nat
  crawlerPuts : List (Nat × Task)
  writerPuts : List (FetchResult × String)
  totalDelta : Nat
  errorDropLog : Bool
  excLog : Option (FuncName × List Arg)
  deriving DecidableEq, Repr

/-- One iteration of `AShareCrawler.do_task` after a successful pop,
translated line by line:
`result = task.func(*task.args)` (an exception here jumps to the handler
before `task.tries += 1` runs); `task.tries += 1`; if `result is None`,
drop when `task.tries >= max_retry`, else requeue at `prior + 2`;
if `task.func.__name__ == 'get_list'`, an empty list means end of pages,
a non-empty list bumps `pbar.total` by `len(result)`, enqueues
`each_task(get_stock, [stk_id], 0)` at priority 0 per id and then
`each_task(get_list, [task.args[0] + 1], 0)` at priority 1 (if
`task.args[0]` is not an int, `task.args[0] + 1` raises after the stock
puts already happened); otherwise the result goes to the writer queue as
`(result, save_fp % task.args[0][2:])` (raising if `task.args[0]` is not a
str).  Python evaluates `if not result` on whatever `get_list`-named
functions return; a DataFrame there would raise, which the model sends to
the exception branch. -/
def do_task_step (save_fp : String) (max_retry : Nat) (prior : Nat) (task : Task)
    (out : ExecOutcome) : CrawlStep :=
  match out with
  | .raises =>
      { tries := task.tries, crawlerPuts := [], writerPuts := [], totalDelta := 0,
        errorDropLog := false, excLog := some (task.func, task.args) }
  | .returns result =>
      if result = .noneRes then
        if task.tries + 1 ≥ max_retry then
          { tries := task.tries + 1, crawlerPuts := [], writerPuts := [], totalDelta := 0,
            errorDropLog := true, excLog := none }
        else
          { tries := task.tries + 1,
            crawlerPuts := [(prior + 2, { task with tries := task.tries + 1 })],
            writerPuts := [], totalDelta := 0, errorDropLog := false, excLog := none }
      else if task.func = .get_list then
        match result with
        | .pageList ids =>
            if ids.isEmpty then
              { tries := task.tries + 1, crawlerPuts := [], writerPuts := [], totalDelta := 0,
                errorDropLog := false, excLog := none }
            else
              match task.args with
              | .int page :: _ =>
                  { tries := task.tries + 1,
                    crawlerPuts :=
                      ids.map (fun stk_id => (0, each_task .get_stock [.str stk_id] 0))
                        ++ [(1, each_task .get_list [.int (page + 1)] 0)],
                    writerPuts := [], totalDelta := ids.length,
                    errorDropLog := false, excLog := none }
              | _ =>
                  { tries := task.tries + 1,
                    crawlerPuts :=
                      ids.map (fun stk_id => (0, each_task .get_stock [.str stk_id] 0)),
                    writerPuts := [], totalDelta := ids.length,
                    errorDropLog := false, excLog := some (task.func, task.args) }
        | _ =>
            { tries := task.tries + 1, crawlerPuts := [], writerPuts := [], totalDelta := 0,
              errorDropLog := false, excLog := some (task.func, task.args) }
      else
        match task.args with
        | .str stk_id :: _ =>
            { tries := task.tries + 1, crawlerPuts := [],
              writerPuts := [(result, pyFormat save_fp (stk_id.drop 2))],
              totalDelta := 0, errorDropLog := false, excLog := none }
        | _ =>
            { tries := task.tries + 1, crawlerPuts := [], writerPuts := [], totalDelta := 0,
              errorDropLog := false, excLog := some (task.func, task.args) }

/-- What the crawler loop observed on one pass: either `queue.get(timeout=30)`
raised `Empty`, or an entry was popped and handled. -/
inductive CrawlLoopEvent where
  | emptyTimeout
  | popped
  deriving DecidableEq, Repr

/-- Loop control of `do_task`: the `while True` body breaks only in the
`except Empty` handler (line 111); every handled entry, exceptional or
not, falls through to the next iteration. -/
def do_task_continues : CrawlLoopEvent → Bool
  | .emptyTimeout => false
  | .popped => true

/-- The tqdm progress bar as the spec's ProgressCounter: `pbar.total` and
`pbar.n` (completed).  Python ints, so `Int`. -/
structure Progress where
  total : Int
  completed : Int
  deriving DecidableEq, Repr

/-- The counter effect of `AShareCrawler.write_result` handling one popped
`(result, save_fp)` pair (lines 133-140): an empty DataFrame decrements
`pbar.total`; otherwise a successful `write` does `pbar.update(1)`
(increments `pbar.n`); a failed `write` changes nothing.  All three happen
under `PBAR_LOCK`, modelled as one atomic state update. -/
def write_result_item (p : Progress) (resultEmpty : Bool) (writeOk : Bool) : Progress :=
  if resultEmpty then { p with total := p.total - 1 }
  else if writeOk then { p with completed := p.completed + 1 }
  else p

/-- What one pass of the writer loop observed: a popped pending result
(with its emptiness and the success of `write`), an `Empty` timeout
together with the result of `self.queues.other.empty()` (the active-worker
registry check), or an exception raised while handling an item and caught
by `except Exception` (line 146). -/
inductive WriterEvent where
  | item (resultEmpty : Bool) (writeOk : Bool)
  | emptyTimeout (registryEmpty : Bool)
  | excDuringItem
  deriving DecidableEq, Repr

/-- Loop control of `write_result` (lines 129-148): the `while True` body
breaks only in the `except Empty` handler and only when
`self.queues.other.empty()` holds; an exception while handling an item is
logged and the loop continues. -/
def write_result_continues : WriterEvent → Bool
  | .emptyTimeout true => false
  | .emptyTimeout false => true
  | .item _ _ => true
  | .excDuringItem => true

/-- The successive `[prior, task]` entries a task occupies on the crawler
queue when its bound function returns `None` on every call:
`retryStream fp mr init k` is the entry before attempt `k+1`, obtained by
folding the requeue produced by `do_task_step` (the head of its crawler
puts); `none` once the worker has dropped the task. -/
def retryStream (save_fp : String) (max_retry : Nat) (init : Nat × Task) :
    Nat → Option (Nat × Task)
  | 0 => some init
  | k + 1 =>
    (retryStream save_fp max_retry init k).bind fun s =>
      (do_task_step save_fp max_retry s.1 s.2 (.returns .noneRes)).crawlerPuts.head?

/-- The counter-touching events of one run, each with the update the code
performs: a non-empty list page discovered by a crawler (`pbar.total += k`,
line 95), a FetchItem task dropped after exhausting retries (no counter
change, lines 74-78), and the three writer outcomes of `write_result`
(lines 133-140). -/
inductive RunEvent where
  | fanOut (k : Nat)
  | dropItem
  | writeEmpty
  | writeSuccess
  | writeFail
  deriving DecidableEq, Repr

/-- The update each event performs on the progress counter; writer events
are exactly `write_result_item` on the corresponding case. -/
def applyEvent (p : Progress) : RunEvent → Progress
  | .fanOut k => { p with total := p.total + k }
  | .dropItem => p
  | .writeEmpty => write_result_item p true false
  | .writeSuccess => write_result_item p false true
  | .writeFail => write_result_item p false false

/-- The progress counter at quiescence: the bar starts at
`tqdm(total=0)` with `n = 0` and accumulates every event of the run. -/
def runCounters (evs : List RunEvent) : Progress :=
  evs.foldl applyEvent { total := 0, completed := 0 }

/-- Total number of item identifiers discovered by fan-out events. -/
def sumFanOut : List RunEvent → Nat
  | [] => 0
  | .fanOut k :: es => k + sumFanOut es
  | _ :: es => sumFanOut es

/-- Number of permanently dropped FetchItem events. -/
def countDrop : List RunEvent → Nat
  | [] => 0
  | .dropItem :: es => countDrop es + 1
  | _ :: es => countDrop es

/-- Number of PermanentEmptyResult events (writer pops an empty record). -/
def countEmpty : List RunEvent → Nat
  | [] => 0
  | .writeEmpty :: es => countEmpty es + 1
  | _ :: es => countEmpty es

/-- Number of successful persistence events. -/
def countSuccess : List RunEvent → Nat
  | [] => 0
  | .writeSuccess :: es => countSuccess es + 1
  | _ :: es => countSuccess es

/-- Number of PersistenceFailure events (`write` returns false). -/
def countFail : List RunEvent → Nat
  | [] => 0
  | .writeFail :: es => countFail es + 1
  | _ :: es => countFail es

/-- A run that reached quiescence with no item lost to an unexpected
exception: every discovered item identifier has exactly one fate — its
FetchItem task was dropped after retries, or its record reached the writer
and was empty, persisted successfully, or failed to persist. -/
def CompleteRun (evs : List RunEvent) : Prop :=
  sumFanOut evs = countDrop evs + countEmpty evs + countSuccess evs + countFail evs

instance (evs : List RunEvent) : Decidable (CompleteRun evs) :=
  Nat.decEq _ _

/-- Entries of the crawler `PriorityQueue` for the ordering analysis.
`do_task` and `assign_tasks` enqueue two-element Python lists
`[prior, task]`; `queue.PriorityQueue` orders entries by `<`, which on
lists is lexicographic: priority first, and on equal priorities the
comparison falls through to the task objects themselves.  Modelled from
the spec for the tie component: `each_task` values come from the absent
`src/utils.py`, so the task's comparison behaviour is abstracted into an
opaque key; no insertion counter is part of an entry. -/
def entryLt (a b : Nat × Nat) : Bool :=
  a.1 < b.1 || (a.1 = b.1 && a.2 < b.2)

/-- The least entry currently in the queue (the one `heapq` surfaces),
keeping the earlier entry when two entries compare fully equal. -/
def leastEntry : List (Nat × Nat) → Option (Nat × Nat)
  | [] => none
  | e :: es =>
    match leastEntry es with
    | none => some e
    | some m => if entryLt m e then some m else some e

/-- `PriorityQueue.get`: remove and return the least entry. -/
def pq_get (q : List (Nat × Nat)) : Option ((Nat × Nat) × List (Nat × Nat)) :=
  match leastEntry q with
  | none => none
  | some m => some (m, q.erase m)

/-- Crawler-queue contents established by `AShareCrawler.__init__`
(line 33): `multi_queues(PriorityQueue(), Queue(), Queue())` bundles three
freshly constructed, empty queues. -/
def init_crawler_queue : List (Nat × Task) := []

/-- Every `put` that `AShareCrawler.assign_tasks` (lines 36-53) performs
on the crawler queue before or while starting the workers: there are none.
The method only submits `do_task` for each crawler thread and
`write_result` once to the pool, then waits and logs the final counts. -/
def assign_tasks_seed_puts : List (Nat × Task) := []

/-- Modelled from the spec: the seed the Scheduler is specified to
enqueue before any worker consumes work — exactly one ListPage task for
page 0 at priority 1. -/
def spec_seed : Nat × Task := (1, each_task .get_list [.int 0] 0)

/-! Theorems -/

/-- C6: for every PendingResult the writer consumes, an absent/empty
payload decrements `total` by one and leaves `completed` unchanged; a
non-empty payload whose persistence succeeds increments `completed` by one
and leaves `total` unchanged; a reported persistence failure changes
neither counter. -/
theorem writer_counter_update (p : Progress) (w : Bool) :
    write_result_item p true w = { p with total := p.total - 1 } ∧
    write_result_item p false true = { p with completed := p.completed + 1 } ∧
    write_result_item p false false = p := by
  refine ⟨rfl, rfl, rfl⟩

/-- C7: the writer loop terminates exactly when a pop from the result
queue times out while the active-worker registry is empty; a timeout with
a non-empty registry, a consumed item, and an exception caught while
handling an item all continue the loop. -/
theorem writer_termination_iff (e : WriterEvent) :
    write_result_continues e = false ↔ e = .emptyTimeout true := by
  cases e with
  | item a b => simp [write_result_continues]
  | emptyTimeout b => cases b <;> simp [write_result_continues]
  | excDuringItem => simp [write_result_continues]

/-- C8: when the task's bound function raises, the iteration performs no
queue operation at all, leaves the tries counter untouched (the increment
sits after the call, so the exception skips it), logs the function name
and arguments, and the loop continues; the retry policy is not applied. -/
theorem exception_path_no_retry (fp : String) (mr p : Nat) (t : Task) :
    do_task_step fp mr p t .raises =
      { tries := t.tries, crawlerPuts := [], writerPuts := [], totalDelta := 0,
        errorDropLog := false, excLog := some (t.func, t.args) } ∧
    do_task_continues .popped = true := by
  exact ⟨rfl, rfl⟩

/-- C9: a task requeued by the retry policy is put back as the very same
task record with only its priority raised by exactly 2 and its tries
counter raised by exactly 1; its bound function and argument sequence are
unchanged. -/
theorem requeue_frame (fp : String) (mr p : Nat) (t : Task)
    (h : t.tries + 1 < mr) :
    (do_task_step fp mr p t (.returns .noneRes)).crawlerPuts =
      [(p + 2, { t with tries := t.tries + 1 })] := by
  have hn : ¬ (t.tries + 1 ≥ mr) := by omega
  simp [do_task_step, hn]

/-- Witness for C9 at a concrete input: a fresh page-0 ListPage task at
priority 1 with maxRetry 3 is requeued at priority 3 with tries 1. -/
theorem requeue_frame_witness :
    (do_task_step "" 3 1 (each_task .get_list [.int 0] 0)
        (.returns .noneRes)).crawlerPuts =
      [(3, { each_task .get_list [.int 0] 0 with tries := 1 })] :=
  requeue_frame "" 3 1 (each_task .get_list [.int 0] 0) (by decide)

/-- C10: every task created by fan-out — each FetchItem child and the
next-page ListPage task — carries a tries counter of 0, regardless of how
often the creating task was attempted. -/
theorem fanout_children_fresh (fp : String) (mr p : Nat) (page : Int)
    (tr : Nat) (ids : List String) (e : Nat × Task)
    (he : e ∈ (do_task_step fp mr p (each_task .get_list [.int page] tr)
        (.returns (.pageList ids))).crawlerPuts) :
    e.2.tries = 0 := by
  by_cases hids : ids.isEmpty
  · simp [do_task_step, each_task, hids] at he
  · simp [do_task_step, each_task, hids] at he
    rcases he with ⟨s, _, rfl⟩ | rfl <;> rfl

/-- Witness for C10 at a concrete input: the next-page task created by a
page-0 ListPage task attempted twice before has tries 0. -/
theorem fanout_children_fresh_witness :
    ((1, each_task .get_list [.int 1] 0) : Nat × Task).2.tries = 0 :=
  fanout_children_fresh "" 3 0 0 2 ["0.600000"]
    (1, each_task .get_list [.int 1] 0) (by decide)

/-- C2: a ListPage task whose bound function returns K item identifiers
makes the iteration raise the expected total by exactly K and enqueue
exactly one priority-0 FetchItem task per identifier followed by exactly
one priority-1 ListPage task for the next page; nothing else is created
and nothing reaches the writer queue. -/
theorem fanout_correctness (fp : String) (mr p : Nat) (page : Int) (tr : Nat)
    (ids : List String) (hids : ids ≠ []) :
    do_task_step fp mr p (each_task .get_list [.int page] tr)
        (.returns (.pageList ids)) =
      { tries := tr + 1,
        crawlerPuts :=
          ids.map (fun stk_id => (0, each_task .get_stock [.str stk_id] 0))
            ++ [(1, each_task .get_list [.int (page + 1)] 0)],
        writerPuts := [], totalDelta := ids.length,
        errorDropLog := false, excLog := none } := by
  have h : ids.isEmpty = false := by
    cases ids with
    | nil => exact absurd rfl hids
    | cons a as => rfl
  simp [do_task_step, each_task, h]

/-- Witness for C2 at a concrete input: page 0 returning two identifiers
creates two priority-0 FetchItem tasks and one priority-1 page-1 task,
with a total increase of 2. -/
theorem fanout_correctness_witness :
    do_task_step "" 3 1 (each_task .get_list [.int 0] 0)
        (.returns (.pageList ["0.600000", "1.000001"])) =
      { tries := 1,
        crawlerPuts :=
          [(0, each_task .get_stock [.str "0.600000"] 0),
           (0, each_task .get_stock [.str "1.000001"] 0),
           (1, each_task .get_list [.int 1] 0)],
        writerPuts := [], totalDelta := 2,
        errorDropLog := false, excLog := none } := by
  have h := fanout_correctness "" 3 1 0 0 ["0.600000", "1.000001"] (by decide)
  simpa using h

/-- When the per-element least entry exists the list is non-empty, and
conversely a cons always has a least entry. -/
theorem leastEntry_cons_isSome (e : Nat × Nat) (es : List (Nat × Nat)) :
    (leastEntry (e :: es)).isSome = true := by
  cases h : leastEntry es with
  | none => simp [leastEntry, h]
  | some m =>
    simp only [leastEntry, h]
    split <;> rfl

/-- The least entry has the numerically smallest priority of the queue. -/
theorem leastEntry_min_fst (q : List (Nat × Nat)) (m : Nat × Nat)
    (hm : leastEntry q = some m) : ∀ x ∈ q, m.1 ≤ x.1 := by
  induction q generalizing m with
  | nil => simp [leastEntry] at hm
  | cons e es ih =>
    cases h : leastEntry es with
    | none =>
      have hes : es = [] := by
        cases es with
        | nil => rfl
        | cons a as =>
          have hs := leastEntry_cons_isSome a as
          rw [h] at hs
          cases hs
      subst hes
      simp only [leastEntry] at hm
      injection hm with hme
      subst hme
      intro x hx
      simp only [List.mem_singleton] at hx
      subst hx
      exact le_refl _
    | some m' =>
      simp only [leastEntry, h] at hm
      have hmin' := ih m' h
      intro x hx
      by_cases hc : entryLt m' e = true
      · rw [if_pos hc] at hm
        injection hm with hme
        subst hme
        have hc1 : m'.1 ≤ e.1 := by
          simp only [entryLt, Bool.or_eq_true, Bool.and_eq_true,
            decide_eq_true_eq] at hc
          rcases hc with h1 | ⟨h1, _⟩ <;> omega
        rcases List.mem_cons.mp hx with rfl | hx'
        · exact hc1
        · exact hmin' x hx'
      · rw [if_neg hc] at hm
        injection hm with hme
        subst hme
        have hc1 : e.1 ≤ m'.1 := by
          by_contra hlt
          exact hc (by simp [entryLt]; omega)
        rcases List.mem_cons.mp hx with rfl | hx'
        · exact le_refl _
        · exact le_trans hc1 (hmin' x hx')

/-- C4 (amended, priority part): whenever the queue holds an entry with a
strictly smaller priority than some entry e2, the entry the queue pop
returns has priority strictly below e2's, so e2 is never popped while
more urgent work is present. -/
theorem priority_ordering (q : List (Nat × Nat)) (e1 e2 : Nat × Nat)
    (h1 : e1 ∈ q) (h2 : e2 ∈ q) (hp : e1.1 < e2.1) :
    ∃ m q', pq_get q = some (m, q') ∧ m.1 < e2.1 ∧ m ≠ e2 := by
  cases q with
  | nil => simp at h1
  | cons e es =>
    cases h : leastEntry (e :: es) with
    | none =>
      have := leastEntry_cons_isSome e es
      rw [h] at this
      cases this
    | some m =>
      have hlt : m.1 < e2.1 :=
        lt_of_le_of_lt (leastEntry_min_fst _ m h e1 h1) hp
      refine ⟨m, (e :: es).erase m, ?_, hlt, ?_⟩
      · simp [pq_get, h]
      · intro hme
        rw [hme] at hlt
        exact lt_irrefl _ hlt

/-- Witness for C4's amended priority part at a concrete input: with
entries of priorities 5 and 3 in the queue, the pop result has priority
below 5 and is not the priority-5 entry. -/
theorem priority_ordering_witness :
    ∃ m q', pq_get [(5, 9), (3, 7)] = some (m, q') ∧
      m.1 < ((5, 9) : Nat × Nat).1 ∧ m ≠ (5, 9) :=
  priority_ordering [(5, 9), (3, 7)] (3, 7) (5, 9) (by decide) (by decide)
    (by decide)

/-- C4 counterexample for the FIFO tie-break: the entry (5, 2) is inserted
first and (5, 1) second with equal priority 5, yet the first pop returns
(5, 1) — the later insertion — because ties fall through to the task
component of the Python list entry, not to insertion order. -/
theorem equal_priority_not_fifo :
    pq_get [(5, 2), (5, 1)] = some ((5, 1), [(5, 2)]) ∧
    ((5, 1) : Nat × Nat) ≠ (5, 2) := by
  exact ⟨by decide, by decide⟩

/-- C5 (code bug): the queue contents going into the worker pool — what
init establishes plus every put assign_tasks performs before or while
starting workers — are empty; in particular the specified page-0 seed at
priority 1 is never enqueued, so every worker starts on an empty queue. -/
theorem scheduler_never_seeds :
    init_crawler_queue ++ assign_tasks_seed_puts = ([] : List (Nat × Task)) ∧
    spec_seed ∉ init_crawler_queue ++ assign_tasks_seed_puts := by
  exact ⟨rfl, by simp [init_crawler_queue, assign_tasks_seed_puts]⟩

/-- Folding the run's events over any starting counter adds the discovered
identifiers to the total, removes one per empty record, and adds one
completion per successful write. -/
theorem foldl_applyEvent (evs : List RunEvent) (p : Progress) :
    evs.foldl applyEvent p =
      { total := p.total + (sumFanOut evs : Int) - (countEmpty evs : Int),
        completed := p.completed + (countSuccess evs : Int) } := by
  induction evs generalizing p with
  | nil => simp [sumFanOut, countEmpty, countSuccess]
  | cons e es ih =>
    cases e <;>
      simp only [List.foldl_cons, applyEvent, write_result_item, ih,
        sumFanOut, countEmpty, countSuccess, if_true, if_false] <;>
      · refine congrArg₂ Progress.mk ?_ ?_ <;> push_cast <;> ring

/-- C3 (amended): at quiescence of a complete run the counters satisfy
completed ≤ total, and total − completed equals the number of
PersistenceFailure events plus the number of permanently dropped
FetchItem events.  PermanentEmptyResult events do not appear in the
difference, because each such event already decrements total itself. -/
theorem accounting_at_quiescence (evs : List RunEvent) (h : CompleteRun evs) :
    (runCounters evs).completed ≤ (runCounters evs).total ∧
    (runCounters evs).total - (runCounters evs).completed =
      (countFail evs : Int) + (countDrop evs : Int) := by
  unfold CompleteRun at h
  unfold runCounters
  rw [foldl_applyEvent]
  constructor <;> simp <;> omega

/-- Witness for C3's amended accounting at a concrete run: three items
discovered, one persisted, one persistence failure, one dropped FetchItem
— the counters read completed 1 and total 3, and 3 − 1 = 1 + 1. -/
theorem accounting_at_quiescence_witness :
    (runCounters [.fanOut 3, .writeSuccess, .writeFail, .dropItem]).completed ≤
        (runCounters [.fanOut 3, .writeSuccess, .writeFail, .dropItem]).total ∧
    (runCounters [.fanOut 3, .writeSuccess, .writeFail, .dropItem]).total -
        (runCounters [.fanOut 3, .writeSuccess, .writeFail, .dropItem]).completed =
      (countFail [.fanOut 3, .writeSuccess, .writeFail, .dropItem] : Int) +
        (countDrop [.fanOut 3, .writeSuccess, .writeFail, .dropItem] : Int) :=
  accounting_at_quiescence [.fanOut 3, .writeSuccess, .writeFail, .dropItem]
    (by decide)

/-- C3 counterexample: a complete run with a single discovered item whose
record comes back empty.  The writer decrements total, so at quiescence
total − completed = 0, while the claimed sum of PermanentEmptyResult,
PersistenceFailure and dropped-FetchItem events is 1. -/
theorem accounting_claim_false :
    CompleteRun [.fanOut 1, .writeEmpty] ∧
    (runCounters [.fanOut 1, .writeEmpty]).total -
        (runCounters [.fanOut 1, .writeEmpty]).completed ≠
      (countEmpty [.fanOut 1, .writeEmpty] : Int) +
        (countFail [.fanOut 1, .writeEmpty] : Int) +
        (countDrop [.fanOut 1, .writeEmpty] : Int) := by
  exact ⟨by decide, by decide⟩

/-- C1 (amended): a task whose bound function returns the transient
failure signal on every attempt is attempted exactly maxRetry times when
maxRetry ≥ 1: before each attempt k+1 with k < maxRetry the task sits on
the queue with priority raised by 2k and tries k, after attempt maxRetry
it is gone for good, and the final attempt drops it with an error-severity
log and no requeue on either queue. -/
theorem retry_exhaustion (fp : String) (mr p0 : Nat) (t0 : Task)
    (hmr : 1 ≤ mr) (ht : t0.tries = 0) :
    (∀ k, k < mr →
      retryStream fp mr (p0, t0) k = some (p0 + 2 * k, { t0 with tries := k })) ∧
    retryStream fp mr (p0, t0) mr = none ∧
    do_task_step fp mr (p0 + 2 * (mr - 1)) { t0 with tries := mr - 1 }
        (.returns .noneRes) =
      { tries := mr, crawlerPuts := [], writerPuts := [], totalDelta := 0,
        errorDropLog := true, excLog := none } := by
  have key : ∀ k, k < mr →
      retryStream fp mr (p0, t0) k = some (p0 + 2 * k, { t0 with tries := k }) := by
    intro k
    induction k with
    | zero =>
      intro _
      have h0 : ({ t0 with tries := 0 } : Task) = t0 := by
        cases t0
        simp_all
      simp [retryStream, h0]
    | succ k ih =>
      intro hk
      have hk' : k < mr := by omega
      have hn : ¬ (k + 1 ≥ mr) := by omega
      rw [retryStream, ih hk']
      simp [do_task_step, hn]
      omega
  obtain ⟨m, rfl⟩ : ∃ m, mr = m + 1 := ⟨mr - 1, by omega⟩
  refine ⟨key, ?_, ?_⟩
  · have hm : m < m + 1 := by omega
    rw [retryStream, key m hm]
    simp [do_task_step]
  · simp [do_task_step]

/-- Witness for C1's amended retry exhaustion at a concrete input: with
maxRetry 3, before the second attempt the fresh page-0 task sits on the
queue at priority 3 with tries 1. -/
theorem retry_exhaustion_witness :
    retryStream "" 3 (1, each_task .get_list [.int 0] 0) 1 =
      some (1 + 2 * 1, { each_task .get_list [.int 0] 0 with tries := 1 }) :=
  (retry_exhaustion "" 3 1 (each_task .get_list [.int 0] 0) (by decide) rfl).1 1
    (by decide)

/-- C1 counterexample: with maxRetry 0 the task is nevertheless attempted
once, not zero times — the worker pops it, calls the bound function,
increments tries to 1, and only then finds tries ≥ maxRetry and drops it
with the error log. -/
theorem retry_zero_still_attempted :
    retryStream "" 0 (1, each_task .get_list [.int 0] 0) 0 =
      some (1, each_task .get_list [.int 0] 0) ∧
    (do_task_step "" 0 1 (each_task .get_list [.int 0] 0)
        (.returns .noneRes)).tries = 1 ∧
    (do_task_step "" 0 1 (each_task .get_list [.int 0] 0)
        (.returns .noneRes)).errorDropLog = true ∧
    retryStream "" 0 (1, each_task .get_list [.int 0] 0) 1 = none := by
  exact ⟨rfl, rfl, rfl, rfl⟩

end AShare
